import Mathlib

set_option maxRecDepth 8000

/-!
# Verification of the voicemail processing pipeline

A shallow embedding of the core of the `avaya_smtp_proxy` repository:
the transcription fan-out (`app/services/transcription.py`), the message
enhancer (`app/services/email_processor.py`), the artifact store
(`app/services/file_manager.py`) and the orchestrator
(`app/tasks/email_tasks.py`), together with theorems settling the
specification's claims about them.

Python strings are embedded as Lean `String`; `str.startswith` becomes a
prefix test on the character list, substring containment becomes `List.IsInfix`
on the character list, `str.lower()` becomes an ASCII case map (all inputs the
claims evaluate are ASCII), and `"\n".join` becomes `joinLines`.  Fallible
filesystem primitives (`shutil.move`, `shutil.rmtree`) are modelled as atomic:
they either fully succeed or fail leaving the tree unchanged, with explicit
boolean fault parameters saying which call fails.
-/

namespace AvayaSmtpProxy

/-! ## String helpers (embeddings of the Python string primitives used) -/

/-- Embedding of Python `s.startswith(pre)`: `pre` is a prefix of `s`. -/
def strStartsWith (s pre : String) : Bool :=
  pre.data.isPrefixOf s.data

/-- Embedding of Python `pat in s`: `pat` occurs contiguously in `s`. -/
def strContains (s pat : String) : Bool :=
  decide (pat.data <:+: s.data)

/-- Embedding of Python `"\n".join(lines)`. -/
def joinLines : List String → String
  | [] => ""
  | [l] => l
  | l :: l' :: ls => l ++ "\n" ++ joinLines (l' :: ls)

/-- ASCII lower-casing of one character (Python `str.lower` restricted to
ASCII, which covers every input evaluated here). -/
def asciiLower (c : Char) : Char :=
  if h : 65 ≤ c.toNat ∧ c.toNat ≤ 90 then
    Char.ofNatAux (c.toNat + 32) (Or.inl (by omega))
  else c

/-- Embedding of Python `s.lower()` (ASCII). -/
def strLower (s : String) : String :=
  ⟨s.data.map asciiLower⟩

/-- Embedding of Python `s[:n]`. -/
def strTake (s : String) (n : Nat) : String :=
  ⟨s.data.take n⟩

/-- Decimal digit character for `n < 10`. -/
def digitChar (n : Nat) : Char :=
  Char.ofNatAux (48 + n % 10) (Or.inl (by omega))

/-- Decimal digits of `n`, most significant first (fuel-driven so that the
kernel can evaluate it; `fuel = n + 1` always suffices). -/
def natDigitsGo : Nat → Nat → List Char
  | 0, _ => []
  | fuel + 1, n =>
    if n < 10 then [digitChar n]
    else natDigitsGo fuel (n / 10) ++ [digitChar (n % 10)]

/-- Embedding of Python `str(n)` / `"%d" % n` for a natural number. -/
def natRepr (n : Nat) : String :=
  ⟨natDigitsGo (n + 1) n⟩

/-- Embedding of Python `f"{n:02d}"`: zero-pad to at least two digits. -/
def fmt02 (n : Nat) : String :=
  if n < 10 then "0" ++ natRepr n else natRepr n

/-! ## Data model (`app/models/messages.py`) -/

/-- `TranscriptionResult` (the fields the enhancer consumes; confidence is
kept as an exact rational standing for the float in `[0, 1]`). -/
structure TranscriptionResult where
  transcript : String
  confidence : ℚ
  language_code : String
  alternatives : List String
  deriving Repr, DecidableEq

/-- `AudioAttachment`: filename, MIME type, declared size and raw bytes. -/
structure AudioAttachment where
  filename : String
  content_type : String
  size_bytes : Nat
  data : List Nat
  deriving Repr, DecidableEq

/-! ## Transcription fan-out (`app/services/transcription.py`) -/

/-- Possible outcomes of one `transcribe_audio` call as observed by
`transcribe_multiple` through `asyncio.gather(..., return_exceptions=True)`:
a `TranscriptionResult`, `None`, or a raised exception captured by `gather`. -/
inductive TranscribeCall where
  | ok (r : TranscriptionResult)
  | failed
  | exc
  deriving Repr, DecidableEq

/-- The per-index aggregation loop of `transcribe_multiple`
(`transcription.py:151-163`): an exception is recorded as `None`, a result is
kept, `None` stays `None`. -/
def settleOutcome : TranscribeCall → Option TranscriptionResult
  | .ok r => some r
  | .failed => none
  | .exc => none

/-- `TranscriptionService.transcribe_multiple` (`transcription.py:122-169`),
parameterised by the oracle `tr` giving each payload's single-call outcome.
`asyncio.gather` returns the call results in task-creation order, i.e. in
input order, regardless of completion order. -/
def transcribe_multiple (tr : AudioAttachment → TranscribeCall)
    (atts : List AudioAttachment) : List (Option TranscriptionResult) :=
  if atts.isEmpty then []
  else atts.map (fun a => settleOutcome (tr a))

/-! ## Message enhancer (`app/services/email_processor.py`) -/

/-- Embedding of Python `f"{q:.2%}"` for a confidence `q`: multiply by `100`
and print with two decimals and a trailing `%`.  Exact rational arithmetic
with round-half-up; it agrees with CPython's float rendering at every point
evaluated in this development (none lies on a rounding boundary). -/
def formatPercent2 (q : ℚ) : String :=
  let n : ℤ := Int.fdiv (q.num * 20000 + q.den) (2 * q.den)
  natRepr (n.toNat / 100) ++ "." ++ fmt02 (n.toNat % 100) ++ "%"

/-- `EmailProcessor._enhance_subject` (`email_processor.py:141-167`). -/
def enhance_subject (original_subject : String)
    (transcription_results : List (Option TranscriptionResult)) : String :=
  let successful := transcription_results.filterMap id
  if ¬ successful.isEmpty then
    if ¬ strStartsWith original_subject "[Transcribed]" then
      "[Transcribed] " ++ original_subject
    else original_subject
  else
    if ¬ strStartsWith original_subject "[Audio]" then
      "[Audio] " ++ original_subject
    else original_subject

/-- The lines one successful outcome contributes to the plain-text body
(the loop body of `_create_plain_text_body`, `email_processor.py:193-207`);
`n` is the number of successful outcomes and `i` the running index. -/
def transcriptionEntry (n i : Nat) (r : TranscriptionResult) : List String :=
  (if n > 1 then ["Audio File " ++ natRepr (i + 1) ++ ":"] else [])
    ++ ["Transcript: " ++ r.transcript,
        "Confidence: " ++ formatPercent2 r.confidence]
    ++ (if ¬ r.alternatives.isEmpty then
          "Alternative transcriptions:" ::
            ((r.alternatives.take 3).enum.map
              (fun p => "  " ++ natRepr (p.1 + 1) ++ ". " ++ p.2))
        else [])
    ++ [""]

/-- The `enumerate` loop over the successful outcomes. -/
def transcriptionEntries (n : Nat) : Nat → List TranscriptionResult → List String
  | _, [] => []
  | i, r :: rs => transcriptionEntry n i r ++ transcriptionEntries n (i + 1) rs

/-- `VoicemailMessage` (`app/models/messages.py`), restricted to the fields
the enhancer and the orchestrator read. -/
structure VoicemailMessage where
  correlation_id : String
  subject : String
  body_text : Option String
  audio_attachments : List AudioAttachment
  deriving Repr, DecidableEq

/-- `VoicemailMessage.has_audio_attachments` (`messages.py:179-181`). -/
def VoicemailMessage.has_audio_attachments (m : VoicemailMessage) : Bool :=
  m.audio_attachments.length > 0

/-- `EmailProcessor._create_plain_text_body` (`email_processor.py:169-223`).
The guard `if voicemail_msg.body_text:` is Python truthiness: the block is
appended only when `body_text` is neither `None` nor the empty string. -/
def create_plain_text_body (msg : VoicemailMessage)
    (transcription_results : List (Option TranscriptionResult)) : String :=
  let successful := transcription_results.filterMap id
  let lines :=
    (if ¬ successful.isEmpty then
       ["=== VOICEMAIL TRANSCRIPTION ===", ""]
         ++ transcriptionEntries successful.length 0 successful
         ++ ["=== END TRANSCRIPTION ===", ""]
     else if msg.has_audio_attachments then
       ["=== VOICEMAIL AUDIO ATTACHED ===",
        "(Transcription was not available for this message)", ""]
     else [])
    ++ (match msg.body_text with
        | some bt =>
          if bt.isEmpty then [] else ["=== ORIGINAL MESSAGE ===", "", bt]
        | none => [])
  joinLines lines

/-! ## Artifact store (`app/services/file_manager.py`)

The three areas `temp` (working), `processed` (succeeded) and `failed` are
maps from correlation id to the directory's content (its stored file names).
`shutil.move` / `shutil.rmtree` are modelled as atomic operations that either
fully succeed or fail leaving the tree unchanged; the boolean fault
parameters say which call raises. -/

/-- Content of one correlation id's artifact directory. -/
abbrev DirContent := List String

/-- The `temp`/`processed`/`failed` areas under the storage root. -/
structure StorageState where
  temp : String → Option DirContent
  processed : String → Option DirContent
  failed : String → Option DirContent

/-- Create or replace the directory `k` in one area. -/
def mapSet (m : String → Option DirContent) (k : String) (v : DirContent) :
    String → Option DirContent :=
  fun k' => if k' = k then some v else m k'

/-- Remove the directory `k` from one area. -/
def mapDel (m : String → Option DirContent) (k : String) :
    String → Option DirContent :=
  fun k' => if k' = k then none else m k'

/-- The fallback branch of `_cleanup_correlation_files`
(`file_manager.py:227-237`): `shutil.rmtree(work_dir)`, reporting `False`
when that delete fails too. -/
def fallbackDelete (st : StorageState) (cid : String) (rmWorkFails : Bool) :
    Bool × StorageState :=
  if rmWorkFails then (false, st)
  else (true, { st with temp := mapDel st.temp cid })

/-- `FileManager._cleanup_correlation_files` (`file_manager.py:180-237`).
If the working directory is absent the call is a reporting-success no-op.
Otherwise the pre-existing target directory (in the chosen terminal area
only) is removed, then the working directory is moved there; if either the
target removal or the move raises, the fallback deletes the working
directory outright.  `cleanup_correlation_files` (`file_manager.py:160-178`)
only adds an exception guard around this and is the same function here. -/
def cleanup_correlation_files (st : StorageState) (cid : String) (success : Bool)
    (rmTargetFails moveFails rmWorkFails : Bool) : Bool × StorageState :=
  match st.temp cid with
  | none => (true, st)
  | some content =>
    let targetArea := if success then st.processed else st.failed
    if (targetArea cid).isSome && rmTargetFails then
      fallbackDelete st cid rmWorkFails
    else
      let st1 :=
        if success then { st with processed := mapDel st.processed cid }
        else { st with failed := mapDel st.failed cid }
      if moveFails then fallbackDelete st1 cid rmWorkFails
      else if success then
        (true, { st1 with temp := mapDel st1.temp cid,
                          processed := mapSet st1.processed cid content })
      else
        (true, { st1 with temp := mapDel st1.temp cid,
                          failed := mapSet st1.failed cid content })

/-- Drop trailing `/` characters (pathlib ignores a trailing separator). -/
def dropTrailingSlashes (l : List Char) : List Char :=
  (l.reverse.dropWhile (· = '/')).reverse

/-- The run of characters after the last `/`. -/
def afterLastSlash (l : List Char) : List Char :=
  (l.reverse.takeWhile (· ≠ '/')).reverse

/-- The final path component, as `pathlib.PurePath(p).name` computes it for
the names arising here: the run after the last separator, a trailing
separator ignored. -/
def pathName (p : String) : String :=
  ⟨afterLastSlash (dropTrailingSlashes p.data)⟩

/-- Index of the last `.` in the component, Python `name.rfind('.')`. -/
def lastDotIdx (l : List Char) : Option Nat :=
  match l.reverse.findIdx? (· = '.') with
  | some j => some (l.length - 1 - j)
  | none => none

/-- `pathlib.PurePath(p).suffix`: the part of the final component from its
last dot on, empty when the dot is leading, trailing or absent. -/
def pathSuffix (p : String) : String :=
  match lastDotIdx (pathName p).data with
  | some i =>
    if 0 < i ∧ i + 1 < (pathName p).data.length
    then ⟨(pathName p).data.drop i⟩ else ""
  | none => ""

/-- `FileManager._generate_safe_filename` (`file_manager.py:137-158`),
parameterised by `md5hex`, the embedding of
`hashlib.md5(s.encode()).hexdigest()` — an arbitrary function producing a
32-character lowercase-hex digest (its defining property below). -/
def generate_safe_filename (md5hex : String → String)
    (original_filename : String) (index : Nat) : String :=
  let extension := strLower (pathSuffix original_filename)
  let filename_hash := strTake (md5hex original_filename) 8
  "audio_" ++ fmt02 index ++ "_" ++ filename_hash ++ extension

/-- Decimal digit character (`'0'`–`'9'`, code points 48–57). -/
def isDigitCh (c : Char) : Bool :=
  decide (48 ≤ c.toNat) && decide (c.toNat ≤ 57)

/-- Lowercase hexadecimal digit (`'0'`–`'9'` or `'a'`–`'f'`,
code points 97–102). -/
def isLowerHex (c : Char) : Bool :=
  isDigitCh c || (decide (97 ≤ c.toNat) && decide (c.toNat ≤ 102))

/-- The documented shape of `hashlib.md5(...).hexdigest()`: 32 lowercase hex
characters, for every input. -/
def HexDigestFn (md5hex : String → String) : Prop :=
  ∀ s, (md5hex s).data.length = 32 ∧ ∀ c ∈ (md5hex s).data, isLowerHex c = true

/-- The claimed shape `audio_<two-digit index>_<8 hex digits><extension>`
of a derived stored filename, sliced by position: characters 0–5 are
`audio_`, 6–7 are exactly two decimal digits, 8 is `_`, 9–16 are exactly
eight lowercase hex digits, and the rest is the given extension. -/
def ShapeOk (name ext : String) : Prop :=
  name.data.take 6 = "audio_".data ∧
  ((name.data.drop 6).take 2).length = 2 ∧
  (∀ c ∈ (name.data.drop 6).take 2, isDigitCh c = true) ∧
  (name.data.drop 8).take 1 = ['_'] ∧
  ((name.data.drop 9).take 8).length = 8 ∧
  (∀ c ∈ (name.data.drop 9).take 8, isLowerHex c = true) ∧
  name.data.drop 17 = ext.data

instance (name ext : String) : Decidable (ShapeOk name ext) := by
  unfold ShapeOk
  exact inferInstance

/-- `FileManager.store_voicemail_files` with `_store_audio_file`
(`file_manager.py:43-135`): create the correlation's working directory, then
store attachment `i` under its derived safe name when its write+verify
succeeds (`storeOk i`); a failed write is skipped, the others proceed.  The
returned association list maps original filenames to stored names. -/
def store_voicemail_files (st : StorageState) (md5hex : String → String)
    (msg : VoicemailMessage) (storeOk : Nat → Bool) :
    List (String × String) × StorageState :=
  let stored := msg.audio_attachments.enum.filterMap
    (fun p => if storeOk p.1 then
        some (p.2.filename, generate_safe_filename md5hex p.2.filename p.1)
      else none)
  (stored, { st with temp := mapSet st.temp msg.correlation_id (stored.map (·.2)) })

/-- `FileManager._cleanup_old_directories` (`file_manager.py:259-300`) on one
area, directories listed as (name, mtime) in iteration order: a directory
older than the cutoff is deleted; a raising delete (`rmFails`) propagates
out of the loop to the surrounding handler, leaving that directory and every
later one untouched. -/
def cleanup_old_directories (cutoff : Nat) (rmFails : String → Bool) :
    List (String × Nat) → List (String × Nat)
  | [] => []
  | d :: rest =>
    if d.2 < cutoff then
      if rmFails d.1 then d :: rest
      else cleanup_old_directories cutoff rmFails rest
    else d :: cleanup_old_directories cutoff rmFails rest

/-! ## Orchestrator (`app/tasks/email_tasks.py`) -/

/-- `ProcessingResult` (`app/models/messages.py:188-219`), without the
timing field the caller overwrites. -/
structure ProcessingResult where
  correlation_id : String
  success : Bool
  transcriptions_count : Nat
  error_message : Option String
  forwarded : Bool
  files_cleaned : Bool
  deriving Repr, DecidableEq

/-- `_process_voicemail_async` (`email_tasks.py:133-236`).  External effects
are oracles: `storeOk i` is whether attachment `i`'s disk write verifies,
`tr` gives each transcription call's outcome, and `dispatchOk` is whether
`enhance_and_forward` delivers the enhanced email (it returns `False` rather
than raising on any internal error).  The one finalize call this invocation
performs receives the filesystem fault flags.  The two `raise ValueError`
sites jump to the single `except` handler, which finalizes with
`success=False` and returns a failure record. -/
def process_voicemail_async (st : StorageState) (md5hex : String → String)
    (msg : VoicemailMessage) (storeOk : Nat → Bool)
    (tr : AudioAttachment → TranscribeCall) (dispatchOk : Bool)
    (rmTargetFails moveFails rmWorkFails : Bool) :
    ProcessingResult × StorageState :=
  let cid := msg.correlation_id
  if msg.has_audio_attachments then
    let s1 := store_voicemail_files st md5hex msg storeOk
    if s1.1.isEmpty then
      let c := cleanup_correlation_files s1.2 cid false rmTargetFails moveFails rmWorkFails
      ({ correlation_id := cid, success := false, transcriptions_count := 0,
         error_message := some "Failed to store audio files for processing",
         forwarded := false, files_cleaned := c.1 }, c.2)
    else
      let results := transcribe_multiple tr msg.audio_attachments
      if dispatchOk then
        let c := cleanup_correlation_files s1.2 cid true rmTargetFails moveFails rmWorkFails
        ({ correlation_id := cid, success := true,
           transcriptions_count := (results.filterMap id).length,
           error_message := none, forwarded := true, files_cleaned := c.1 }, c.2)
      else
        let c := cleanup_correlation_files s1.2 cid false rmTargetFails moveFails rmWorkFails
        ({ correlation_id := cid, success := false,
           transcriptions_count := (results.filterMap id).length,
           error_message := some "Failed to forward enhanced email",
           forwarded := false, files_cleaned := c.1 }, c.2)
  else
    if dispatchOk then
      let c := cleanup_correlation_files st cid true rmTargetFails moveFails rmWorkFails
      ({ correlation_id := cid, success := true, transcriptions_count := 0,
         error_message := none, forwarded := true, files_cleaned := c.1 }, c.2)
    else
      let c := cleanup_correlation_files st cid false rmTargetFails moveFails rmWorkFails
      ({ correlation_id := cid, success := false, transcriptions_count := 0,
         error_message := some "Failed to forward enhanced email",
         forwarded := false, files_cleaned := c.1 }, c.2)

/-! ## Concrete instances used by scenario theorems and witnesses -/

/-- A storage root with all three areas empty. -/
def emptyStorage : StorageState :=
  ⟨fun _ => none, fun _ => none, fun _ => none⟩

/-- The confidence `0.95` of Scenario B, as an exact rational. -/
def confidence095 : ℚ := ⟨19, 20, by norm_num, by norm_num⟩

/-- Scenario B's successful transcription outcome: transcript
`"call me back"`, confidence `0.95`, no alternatives. -/
def scenarioResult : TranscriptionResult :=
  { transcript := "call me back", confidence := confidence095,
    language_code := "en-US", alternatives := [] }

/-- Scenario B's single WAV payload. -/
def scenarioAttachment : AudioAttachment :=
  { filename := "vm.wav", content_type := "audio/wav",
    size_bytes := 3, data := [1, 2, 3] }

/-- Scenario B's message: one WAV payload, a plain-text body. -/
def scenarioMessage : VoicemailMessage :=
  { correlation_id := "corr-b", subject := "Voicemail from John",
    body_text := some "orig body", audio_attachments := [scenarioAttachment] }

/-- Scenario A's message: no audio payloads at all. -/
def msgNoAudio : VoicemailMessage :=
  { correlation_id := "corr-a", subject := "Hello",
    body_text := some "orig body", audio_attachments := [] }

/-- A stand-in digest function with the documented `hexdigest` shape
(32 lowercase hex characters for every input). -/
def md5Stub : String → String :=
  fun _ => "0123456789abcdef0123456789abcdef"

/-- A storage state whose working area holds artifacts for id `"c"`. -/
def wSt : StorageState :=
  { temp := mapSet (fun _ => none) "c" ["f"],
    processed := fun _ => none, failed := fun _ => none }

/-- A storage state with id `"c"` both in the working area (a retry in
flight) and in the failed area (residue of an earlier failed attempt). -/
def wfSt : StorageState :=
  { temp := mapSet (fun _ => none) "c" ["f"],
    processed := fun _ => none,
    failed := mapSet (fun _ => none) "c" ["g"] }

/-- First finalize of the re-processing counterexample run:
`finalize("c", success=False)` from `wSt`, no filesystem faults. -/
def cexRun1 : Bool × StorageState :=
  cleanup_correlation_files wSt "c" false false false false

/-- The same correlation id stored again for the retry: its working
directory is re-created on top of the state `cexRun1` left. -/
def cexRetrySt : StorageState :=
  { cexRun1.2 with temp := mapSet cexRun1.2.temp "c" ["f"] }

/-- Second finalize of the run: `finalize("c", success=True)`. -/
def cexRun2 : Bool × StorageState :=
  cleanup_correlation_files cexRetrySt "c" true false false false

/-! ## Helper lemmas -/

theorem transcribe_multiple_eq_map (tr : AudioAttachment → TranscribeCall)
    (atts : List AudioAttachment) :
    transcribe_multiple tr atts = atts.map (fun a => settleOutcome (tr a)) := by
  cases atts <;> simp [transcribe_multiple]

theorem strStartsWith_intro {s p : String} (h : p.data <+: s.data) :
    strStartsWith s p = true :=
  List.isPrefixOf_iff_prefix.mpr h

theorem strContains_intro {s pat : String} (h : pat.data <:+: s.data) :
    strContains s pat = true :=
  decide_eq_true h

theorem joinLines_contains_of_mem : ∀ (ls : List String) (s : String),
    s ∈ ls → s.data <:+: (joinLines ls).data
  | [l], s, h => by
    rw [List.mem_singleton] at h
    subst h
    exact List.infix_refl _
  | l :: l' :: ls, s, h => by
    rw [show joinLines (l :: l' :: ls) = (l ++ "\n") ++ joinLines (l' :: ls) from rfl]
    rw [String.data_append]
    cases h with
    | head =>
      rw [String.data_append]
      rw [List.append_assoc]
      exact (List.prefix_append _ _).isInfix
    | tail _ h =>
      exact (joinLines_contains_of_mem (l' :: ls) s h).trans (List.suffix_append _ _).isInfix

theorem transcript_mem_transcriptionEntries (n : Nat) :
    ∀ (i : Nat) (rs : List TranscriptionResult) (r : TranscriptionResult),
    r ∈ rs → ("Transcript: " ++ r.transcript) ∈ transcriptionEntries n i rs
  | i, r' :: rs, r, h => by
    rw [show transcriptionEntries n i (r' :: rs)
          = transcriptionEntry n i r' ++ transcriptionEntries n (i + 1) rs from rfl]
    rw [List.mem_append]
    cases h with
    | head =>
      left
      simp [transcriptionEntry]
    | tail _ h =>
      right
      exact transcript_mem_transcriptionEntries n (i + 1) rs r h

theorem isDigitCh_digitChar (n : Nat) : isDigitCh (digitChar n) = true := by
  have h : (digitChar n).toNat = 48 + n % 10 := rfl
  simp [isDigitCh, h]
  omega

theorem natDigitsGo_all_digits :
    ∀ (fuel n : Nat), ∀ c ∈ natDigitsGo fuel n, isDigitCh c = true
  | 0, n => by
    intro c hc
    simp [natDigitsGo] at hc
  | fuel + 1, n => by
    intro c hc
    by_cases h : n < 10
    · simp [natDigitsGo, h] at hc
      subst hc
      exact isDigitCh_digitChar n
    · simp [natDigitsGo, h] at hc
      rcases hc with hc | hc
      · exact natDigitsGo_all_digits fuel (n / 10) c hc
      · subst hc
        exact isDigitCh_digitChar (n % 10)

theorem fmt02_all_digits (n : Nat) : ∀ c ∈ (fmt02 n).data, isDigitCh c = true := by
  intro c hc
  by_cases h : n < 10
  · simp [fmt02, natRepr, h, String.data_append] at hc
    rcases hc with hc | hc
    · subst hc
      decide
    · exact natDigitsGo_all_digits (n + 1) n c hc
  · simp [fmt02, natRepr, h] at hc
    exact natDigitsGo_all_digits (n + 1) n c hc

theorem fmt02_two_digits : ∀ n < 100, (fmt02 n).data.length = 2 := by decide

theorem pathName_no_slash (p : String) : ∀ c ∈ (pathName p).data, c ≠ '/' := by
  intro c hc
  simp [pathName, afterLastSlash, dropTrailingSlashes] at hc
  simpa using List.mem_takeWhile_imp hc

theorem pathSuffix_no_slash (p : String) : ∀ c ∈ (pathSuffix p).data, c ≠ '/' := by
  intro c hc
  cases h : lastDotIdx (pathName p).data with
  | none =>
    simp [pathSuffix, h] at hc
  | some i =>
    simp [pathSuffix, h] at hc
    by_cases hi : 0 < i ∧ i + 1 < (pathName p).length
    · rw [if_pos hi] at hc
      exact pathName_no_slash p c (List.drop_subset i _ hc)
    · rw [if_neg hi] at hc
      cases hc

theorem strLower_no_slash (s : String) (hs : ∀ c ∈ s.data, c ≠ '/') :
    ∀ c ∈ (strLower s).data, c ≠ '/' := by
  intro c hc
  simp [strLower] at hc
  obtain ⟨a, ha, rfl⟩ := hc
  have hA := hs a ha
  unfold asciiLower
  split
  · rename_i hcase
    intro e
    have h1 : a.toNat + 32 = 47 := congrArg Char.toNat e
    omega
  · exact hA

theorem md5Stub_hex : HexDigestFn md5Stub := by
  intro s
  exact ⟨(by decide :
      ("0123456789abcdef0123456789abcdef" : String).data.length = 32),
    (by decide :
      ∀ c ∈ ("0123456789abcdef0123456789abcdef" : String).data,
        isLowerHex c = true)⟩

/-! ## Claim theorems -/

/-- C1: `transcribe_multiple` returns an outcome list of the same length as
the payload list, positionally aligned: the entry at index `i` is exactly
the settled outcome of payload `i`'s own transcription call, so an
exception or failure of one call is recorded as `none` at its index and the
entries of all other indices are untouched. -/
theorem c1_transcribe_all_alignment (tr : AudioAttachment → TranscribeCall)
    (atts : List AudioAttachment) (i : Nat) :
    (transcribe_multiple tr atts).length = atts.length ∧
    (transcribe_multiple tr atts)[i]? = atts[i]?.map (fun a => settleOutcome (tr a)) := by
  rw [transcribe_multiple_eq_map]
  exact ⟨List.length_map _ _, List.getElem?_map _ _ _⟩

/-- C7 counterexample: sweeping the area `[("a", 0), ("b", 0)]` with cutoff
`1` when deleting `"a"` raises leaves the eligible directory `"b"` (older
than the cutoff) undeleted: the raised error aborts the whole loop, so a
failure on one directory does prevent the reclamation of the others. -/
theorem c7_sweep_counterexample :
    cleanup_old_directories 1 (fun s => s == "a") [("a", 0), ("b", 0)]
        = [("a", 0), ("b", 0)] ∧
    ("b", 0) ∈ cleanup_old_directories 1 (fun s => s == "a") [("a", 0), ("b", 0)] := by
  decide

/-- C7 (amended): within one area the sweep deletes old directories only up
to the first failing delete: with no failing delete every directory older
than the cutoff is deleted and every younger one retained; when the delete
of an old directory `d` raises, the old directories before it are already
deleted, but `d` itself and every directory after it — examined or not —
remain. -/
theorem c7_sweep_aborts_on_failure (cutoff : Nat) (rmFails : String → Bool) :
    (∀ dirs : List (String × Nat),
       (∀ d ∈ dirs, d.2 < cutoff → rmFails d.1 = false) →
       cleanup_old_directories cutoff rmFails dirs
         = dirs.filter (fun e => !decide (e.2 < cutoff))) ∧
    (∀ (pre : List (String × Nat)) (d : String × Nat) (post : List (String × Nat)),
       d.2 < cutoff → rmFails d.1 = true →
       (∀ e ∈ pre, e.2 < cutoff → rmFails e.1 = false) →
       cleanup_old_directories cutoff rmFails (pre ++ d :: post)
         = pre.filter (fun e => !decide (e.2 < cutoff)) ++ d :: post) := by
  constructor
  · intro dirs h
    induction dirs with
    | nil => rfl
    | cons e rest ih =>
      by_cases he : e.2 < cutoff
      · have hf : rmFails e.1 = false := h e (List.mem_cons_self _ _) he
        simp [cleanup_old_directories, he, hf,
          ih (fun d hd => h d (List.mem_cons_of_mem _ hd))]
      · simp [cleanup_old_directories, he,
          ih (fun d hd => h d (List.mem_cons_of_mem _ hd))]
  · intro pre d post hd hf hpre
    induction pre with
    | nil => simp [cleanup_old_directories, hd, hf]
    | cons e rest ih =>
      by_cases he : e.2 < cutoff
      · have hef : rmFails e.1 = false := hpre e (List.mem_cons_self _ _) he
        simp [cleanup_old_directories, he, hef,
          ih (fun x hx => hpre x (List.mem_cons_of_mem _ hx))]
      · simp [cleanup_old_directories, he,
          ih (fun x hx => hpre x (List.mem_cons_of_mem _ hx))]

/-- C7 witness: a concrete fault-free sweep reclaims exactly the old
directories, and a concrete sweep whose delete of `"z"` raises keeps `"z"`
and everything after it while the old directory before it is gone. -/
theorem c7_sweep_aborts_on_failure_witness :
    cleanup_old_directories 5 (fun _ => false) [("x", 1), ("y", 9)]
        = [("x", 1), ("y", 9)].filter (fun e => !decide (e.2 < 5)) ∧
    cleanup_old_directories 5 (fun s => s == "z") ([("x", 1)] ++ ("z", 2) :: [("w", 3)])
        = [("x", 1)].filter (fun e => !decide (e.2 < 5)) ++ ("z", 2) :: [("w", 3)] := by
  constructor
  · exact (c7_sweep_aborts_on_failure 5 (fun _ => false)).1
      [("x", 1), ("y", 9)] (by decide)
  · exact (c7_sweep_aborts_on_failure 5 (fun s => s == "z")).2
      [("x", 1)] ("z", 2) [("w", 3)] (by decide) (by decide) (by decide)

/-- C8 counterexample: for Scenario B (one WAV payload, transcript
`"call me back"`, confidence `0.95`) the enhanced plain-text body renders
the confidence as `95.00%`, so the exact string `"95%"` does NOT occur in
it, contrary to the claim. -/
theorem c8_body_95_percent_counterexample :
    strContains (create_plain_text_body scenarioMessage [some scenarioResult]) "95%"
      = false := by
  decide

/-- C8 (amended): for Scenario B the enhanced subject is `"[Transcribed] "`
followed by the original subject, and the enhanced plain-text body contains
the transcript `"call me back"` verbatim and the confidence rendered as a
percentage in the form `"95.00%"`. -/
theorem c8_scenario_b :
    enhance_subject scenarioMessage.subject [some scenarioResult]
        = "[Transcribed] Voicemail from John" ∧
    strContains (create_plain_text_body scenarioMessage [some scenarioResult])
        "call me back" = true ∧
    strContains (create_plain_text_body scenarioMessage [some scenarioResult])
        "95.00%" = true := by
  refine ⟨by decide, by decide, by decide⟩

/-- C2 counterexample: enhancing a message with zero audio payloads (empty
outcome list) does NOT leave the subject unchanged: `_enhance_subject` sees
no successful outcome and prepends the `"[Audio] "` marker. -/
theorem c2_no_audio_subject_counterexample :
    enhance_subject "Hello" [] = "[Audio] Hello" ∧
    enhance_subject "Hello" [] ≠ "Hello" := by
  decide

/-- C2 (amended): for every message with zero audio payloads whose dispatch
succeeds, processing returns a success result with zero transcriptions; the
enhanced subject is the original prefixed with the `"[Audio] "` marker
(when not already so prefixed) — not the unchanged original — and no
transcription or audio-notice section is inserted before the original body
(the body is just the original-message block when a nonempty original body
exists, and empty when the body is absent or the empty string). -/
theorem c2_no_audio_processing (st : StorageState) (md5hex : String → String)
    (msg : VoicemailMessage) (storeOk : Nat → Bool)
    (tr : AudioAttachment → TranscribeCall) (rmT mv rmW : Bool)
    (haudio : msg.audio_attachments = [])
    (hsub : strStartsWith msg.subject "[Audio]" = false) :
    (process_voicemail_async st md5hex msg storeOk tr true rmT mv rmW).1.success = true ∧
    (process_voicemail_async st md5hex msg storeOk tr true rmT mv rmW).1.transcriptions_count = 0 ∧
    enhance_subject msg.subject [] = "[Audio] " ++ msg.subject ∧
    create_plain_text_body msg []
      = joinLines (match msg.body_text with
          | some bt =>
            if bt.isEmpty then [] else ["=== ORIGINAL MESSAGE ===", "", bt]
          | none => []) := by
  have hna : msg.has_audio_attachments = false := by
    simp [VoicemailMessage.has_audio_attachments, haudio]
  refine ⟨?_, ?_, ?_, ?_⟩
  · simp [process_voicemail_async, hna]
  · simp [process_voicemail_async, hna]
  · simp [enhance_subject, hsub]
  · simp [create_plain_text_body, hna]

/-- C2 witness: the amended statement at the concrete no-audio message. -/
theorem c2_no_audio_processing_witness :
    (process_voicemail_async emptyStorage md5Stub msgNoAudio (fun _ => true)
        (fun _ => .exc) true false false false).1.success = true ∧
    (process_voicemail_async emptyStorage md5Stub msgNoAudio (fun _ => true)
        (fun _ => .exc) true false false false).1.transcriptions_count = 0 ∧
    enhance_subject msgNoAudio.subject [] = "[Audio] " ++ msgNoAudio.subject ∧
    create_plain_text_body msgNoAudio []
      = joinLines (match msgNoAudio.body_text with
          | some bt =>
            if bt.isEmpty then [] else ["=== ORIGINAL MESSAGE ===", "", bt]
          | none => []) :=
  c2_no_audio_processing emptyStorage md5Stub msgNoAudio (fun _ => true)
    (fun _ => .exc) false false false rfl (by decide)

/-- C4 counterexample: the claim quantifies over every correlation id with
artifacts in the working area, but if the same id also has residue in the
failed area (from an earlier failed attempt), two `finalize(id, True)`
calls leave that residue in place: the id ends up in the succeeded AND the
failed area, not "with no residue in failed". -/
theorem c4_stale_failed_residue_counterexample :
    (cleanup_correlation_files
        (cleanup_correlation_files wfSt "c" true false false false).2
        "c" true false false false).2.failed "c" = some ["g"] ∧
    (cleanup_correlation_files
        (cleanup_correlation_files wfSt "c" true false false false).2
        "c" true false false false).2.processed "c" = some ["f"] := by
  decide

/-- C4 (amended): for a correlation id with artifacts in the working area
and no residue of it in the failed area, two consecutive fault-free
`finalize(id, success=True)` calls both report success and leave the
artifact in the succeeded area exactly once, with nothing under the working
or failed area for that id (the second call is a reporting-success no-op). -/
theorem c4_finalize_idempotent (st : StorageState) (cid : String)
    (content : DirContent)
    (h1 : st.temp cid = some content) (h2 : st.failed cid = none) :
    (cleanup_correlation_files st cid true false false false).1 = true ∧
    (cleanup_correlation_files
        (cleanup_correlation_files st cid true false false false).2
        cid true false false false).1 = true ∧
    (cleanup_correlation_files
        (cleanup_correlation_files st cid true false false false).2
        cid true false false false).2.processed cid = some content ∧
    (cleanup_correlation_files
        (cleanup_correlation_files st cid true false false false).2
        cid true false false false).2.temp cid = none ∧
    (cleanup_correlation_files
        (cleanup_correlation_files st cid true false false false).2
        cid true false false false).2.failed cid = none := by
  refine ⟨?_, ?_, ?_, ?_, ?_⟩ <;>
    simp [cleanup_correlation_files, mapDel, mapSet, h1, h2]

/-- C4 witness: the amended statement at a concrete one-id working area. -/
theorem c4_finalize_idempotent_witness :
    (cleanup_correlation_files wSt "c" true false false false).1 = true ∧
    (cleanup_correlation_files
        (cleanup_correlation_files wSt "c" true false false false).2
        "c" true false false false).1 = true ∧
    (cleanup_correlation_files
        (cleanup_correlation_files wSt "c" true false false false).2
        "c" true false false false).2.processed "c" = some ["f"] ∧
    (cleanup_correlation_files
        (cleanup_correlation_files wSt "c" true false false false).2
        "c" true false false false).2.temp "c" = none ∧
    (cleanup_correlation_files
        (cleanup_correlation_files wSt "c" true false false false).2
        "c" true false false false).2.failed "c" = none :=
  c4_finalize_idempotent wSt "c" ["f"] rfl rfl

/-- C3 counterexample: finalize only replaces the pre-existing target in
the terminal area it is moving INTO, never the other one.  Finalizing id
`"c"` as failed, re-storing it for a retry, then finalizing it as succeeded
(all calls reporting success) leaves `"c"` present in the failed AND the
succeeded area simultaneously — two areas at once. -/
theorem c3_two_areas_counterexample :
    cexRun1.1 = true ∧ cexRun2.1 = true ∧
    (cexRun2.2.processed "c").isSome = true ∧
    (cexRun2.2.failed "c").isSome = true := by
  decide

/-- C3 (amended): finalize moves the working directory of the correlation
id to the chosen terminal area, replacing an existing target there but
leaving the OTHER terminal area untouched (so an id finalized under both
flags across attempts can occupy two terminal areas); whenever the fallback
delete does not fail it reports success and the id is out of the working
area, and when the move and the fallback delete both fail it reports
failure with the id still stranded in the working area. -/
theorem c3_finalize_area_transfer (st : StorageState) (cid : String)
    (success rmT mv rmW : Bool) (content : DirContent)
    (h : st.temp cid = some content)
    (r : Bool × StorageState)
    (hr : r = cleanup_correlation_files st cid success rmT mv rmW) :
    (r.1 = true → r.2.temp cid = none) ∧
    (rmT = false → mv = false →
       r.1 = true ∧ r.2.temp cid = none ∧
       (success = true →
          r.2.processed cid = some content ∧ r.2.failed cid = st.failed cid) ∧
       (success = false →
          r.2.failed cid = some content ∧ r.2.processed cid = st.processed cid)) ∧
    (rmW = false → r.1 = true ∧ r.2.temp cid = none) ∧
    (mv = true → rmW = true → r.1 = false ∧ r.2.temp cid = some content) := by
  subst hr
  cases success <;> cases rmT <;> cases mv <;> cases rmW <;>
    simp [cleanup_correlation_files, fallbackDelete, mapDel, mapSet, h] <;>
    cases hP : st.processed cid <;> cases hF : st.failed cid <;>
      simp [hP, hF, h, mapDel, mapSet]

/-- C3 witness: the amended statement at a concrete working-area state,
fault-free success finalize. -/
theorem c3_finalize_area_transfer_witness :
    (cleanup_correlation_files wSt "c" true false false false).1 = true ∧
    (cleanup_correlation_files wSt "c" true false false false).2.temp "c" = none ∧
    (cleanup_correlation_files wSt "c" true false false false).2.processed "c"
      = some ["f"] := by
  have h := c3_finalize_area_transfer wSt "c" true false false false ["f"] rfl
    (cleanup_correlation_files wSt "c" true false false false) rfl
  exact ⟨(h.2.1 rfl rfl).1, (h.2.1 rfl rfl).2.1, ((h.2.1 rfl rfl).2.2.1 rfl).1⟩

/-- C5: when dispatch of the enhanced email fails after the payloads were
stored and transcribed, the returned record has `success = False`,
`forwarded = False` and a non-nil error message, and the finalize performed
before returning is invoked with `success=False`: with no filesystem
faults the correlation id's artifacts end up in the failed area and the
working area no longer holds them. -/
theorem c5_dispatch_failure_goes_failed (st : StorageState)
    (md5hex : String → String) (msg : VoicemailMessage) (storeOk : Nat → Bool)
    (tr : AudioAttachment → TranscribeCall) (rmT mv rmW : Bool)
    (haud : msg.audio_attachments ≠ [])
    (hstore : ∀ i, storeOk i = true)
    (r : ProcessingResult × StorageState)
    (hr : r = process_voicemail_async st md5hex msg storeOk tr false rmT mv rmW) :
    r.1.success = false ∧ r.1.forwarded = false ∧
    r.1.error_message.isSome = true ∧
    (rmT = false → mv = false →
       (r.2.failed msg.correlation_id).isSome = true ∧
       r.2.temp msg.correlation_id = none) := by
  subst hr
  have hna : msg.has_audio_attachments = true := by
    simp [VoicemailMessage.has_audio_attachments, List.length_pos, haud]
  obtain ⟨a, as, hmsg⟩ : ∃ a as, msg.audio_attachments = a :: as := by
    cases hl : msg.audio_attachments with
    | nil => exact absurd hl haud
    | cons a as => exact ⟨a, as, rfl⟩
  have hs1 : (store_voicemail_files st md5hex msg storeOk).1.isEmpty = false := by
    simp [store_voicemail_files, hmsg, hstore, List.enum_cons]
  refine ⟨?_, ?_, ?_, ?_⟩
  · simp [process_voicemail_async, hna, hs1]
  · simp [process_voicemail_async, hna, hs1]
  · simp [process_voicemail_async, hna, hs1]
  · intro hrmT hmv
    subst hrmT
    subst hmv
    simp [process_voicemail_async, hna, store_voicemail_files, hmsg, hstore,
      List.enum_cons, cleanup_correlation_files, fallbackDelete, mapSet, mapDel]

/-- C5 witness: the concrete Scenario-B message with failing dispatch. -/
theorem c5_dispatch_failure_goes_failed_witness :
    (process_voicemail_async emptyStorage md5Stub scenarioMessage (fun _ => true)
        (fun _ => .exc) false false false false).1.success = false ∧
    ((process_voicemail_async emptyStorage md5Stub scenarioMessage (fun _ => true)
        (fun _ => .exc) false false false false).2.failed "corr-b").isSome = true := by
  have h := c5_dispatch_failure_goes_failed emptyStorage md5Stub scenarioMessage
    (fun _ => true) (fun _ => .exc) false false false (by decide) (fun _ => rfl)
    (process_voicemail_async emptyStorage md5Stub scenarioMessage (fun _ => true)
      (fun _ => .exc) false false false false) rfl
  exact ⟨h.1, (h.2.2.2 rfl rfl).1⟩

/-- C6: with at least one successful outcome, enhancing prefixes the
subject with the `[Transcribed]` marker; applying `enhance_subject` a
second time to the already-prefixed subject with the same outcomes returns
it unchanged, so the marker is prefixed exactly once (when the original
subject lacked the marker the result is exactly `"[Transcribed] " ++
subject`); and the successful transcript occurs verbatim in the enhanced
plain-text body. -/
theorem c6_subject_prefix_idempotent (subj : String)
    (results : List (Option TranscriptionResult)) (r : TranscriptionResult)
    (hr : some r ∈ results) (msg : VoicemailMessage) :
    strStartsWith (enhance_subject subj results) "[Transcribed]" = true ∧
    enhance_subject (enhance_subject subj results) results
      = enhance_subject subj results ∧
    (strStartsWith subj "[Transcribed]" = false →
       enhance_subject subj results = "[Transcribed] " ++ subj) ∧
    strContains (create_plain_text_body msg results) r.transcript = true := by
  have hsucc : r ∈ results.filterMap id := List.mem_filterMap.mpr ⟨some r, hr, rfl⟩
  have hne : (results.filterMap id).isEmpty = false := by
    cases hfm : results.filterMap id with
    | nil => rw [hfm] at hsucc; cases hsucc
    | cons x xs => rfl
  have hpre : strStartsWith ("[Transcribed] " ++ subj) "[Transcribed]" = true := by
    apply strStartsWith_intro
    rw [String.data_append]
    exact List.IsPrefix.trans (by decide) (List.prefix_append _ _)
  have h1 : strStartsWith (enhance_subject subj results) "[Transcribed]" = true := by
    cases hs : strStartsWith subj "[Transcribed]" with
    | false => simp [enhance_subject, hne, hs, hpre]
    | true => simp [enhance_subject, hne, hs]
  refine ⟨h1, ?_, ?_, ?_⟩
  · generalize hE : enhance_subject subj results = e at h1 ⊢
    simp [enhance_subject, hne, h1]
  · intro hs
    simp [enhance_subject, hne, hs]
  · have hbody : create_plain_text_body msg results
        = joinLines (["=== VOICEMAIL TRANSCRIPTION ===", ""]
            ++ transcriptionEntries (results.filterMap id).length 0
                (results.filterMap id)
            ++ ["=== END TRANSCRIPTION ===", ""]
            ++ (match msg.body_text with
                | some bt =>
                  if bt.isEmpty then []
                  else ["=== ORIGINAL MESSAGE ===", "", bt]
                | none => [])) := by
      simp [create_plain_text_body, hne]
    have hm := transcript_mem_transcriptionEntries
      (results.filterMap id).length 0 (results.filterMap id) r hsucc
    have hmem : ("Transcript: " ++ r.transcript)
        ∈ (["=== VOICEMAIL TRANSCRIPTION ===", ""]
            ++ transcriptionEntries (results.filterMap id).length 0
                (results.filterMap id)
            ++ ["=== END TRANSCRIPTION ===", ""]
            ++ (match msg.body_text with
                | some bt =>
                  if bt.isEmpty then []
                  else ["=== ORIGINAL MESSAGE ===", "", bt]
                | none => [])) :=
      List.mem_append.mpr (Or.inl (List.mem_append.mpr (Or.inl
        (List.mem_append.mpr (Or.inr hm)))))
    have hinf1 : ("Transcript: " ++ r.transcript).data
        <:+: (create_plain_text_body msg results).data := by
      rw [hbody]
      exact joinLines_contains_of_mem _ _ hmem
    have hinf2 : r.transcript.data <:+: ("Transcript: " ++ r.transcript).data := by
      rw [String.data_append]
      exact (List.suffix_append _ _).isInfix
    exact strContains_intro (hinf2.trans hinf1)

/-- C6 witness: the idempotent prefixing at Scenario B's concrete subject
and outcome list. -/
theorem c6_subject_prefix_idempotent_witness :
    strStartsWith (enhance_subject "Voicemail from John" [some scenarioResult])
        "[Transcribed]" = true ∧
    enhance_subject (enhance_subject "Voicemail from John" [some scenarioResult])
        [some scenarioResult]
      = enhance_subject "Voicemail from John" [some scenarioResult] ∧
    enhance_subject "Voicemail from John" [some scenarioResult]
      = "[Transcribed] " ++ "Voicemail from John" ∧
    strContains (create_plain_text_body scenarioMessage [some scenarioResult])
        scenarioResult.transcript = true := by
  have h := c6_subject_prefix_idempotent "Voicemail from John" [some scenarioResult]
    scenarioResult (by decide) scenarioMessage
  exact ⟨h.1, h.2.1, h.2.2.1 (by decide), h.2.2.2⟩

/-- C9 counterexample: at index `100` the derived stored filename is
`audio_100_<hash8><ext>` — the index field has three digits, so the claimed
exact shape `audio_<two-digit index>_<8 hex digits><extension>` fails (the
character at position 8 is a digit, not the `_` the shape requires),
already for a digest function of the documented `hexdigest` shape. -/
theorem c9_shape_counterexample :
    HexDigestFn md5Stub ∧
    ¬ ShapeOk (generate_safe_filename md5Stub "voicemail.WAV" 100)
        (strLower (pathSuffix "voicemail.WAV")) :=
  ⟨md5Stub_hex, by decide⟩

/-- C9 (amended): the derived stored filename is deterministic and depends
only on the original filename and the index (not on the payload bytes); for
indices below `100` it has the exact shape
`audio_<two-digit index>_<8 hex digits><lowercased extension>`; for any
index it contains no path separator and is not empty, `.` or `..`, so
joining it to the correlation id's working directory stays inside that
directory. -/
theorem c9_safe_filename (md5hex : String → String) (hmd5 : HexDigestFn md5hex)
    (original : String) (index : Nat) (a b : AudioAttachment) :
    (a.filename = b.filename →
       generate_safe_filename md5hex a.filename index
         = generate_safe_filename md5hex b.filename index) ∧
    (index < 100 →
       ShapeOk (generate_safe_filename md5hex original index)
         (strLower (pathSuffix original))) ∧
    ('/' ∉ (generate_safe_filename md5hex original index).data ∧
     (generate_safe_filename md5hex original index).data ≠ [] ∧
     (generate_safe_filename md5hex original index).data ≠ ['.'] ∧
     (generate_safe_filename md5hex original index).data ≠ ['.', '.']) := by
  have hdata : (generate_safe_filename md5hex original index).data
      = "audio_".data ++ ((fmt02 index).data ++ ("_".data
          ++ ((strTake (md5hex original) 8).data
              ++ (strLower (pathSuffix original)).data))) := by
    simp [generate_safe_filename, String.data_append]
  have hA : ("audio_".data : List Char).length = 6 := rfl
  have hU : ("_".data : List Char).length = 1 := rfl
  have hH : (strTake (md5hex original) 8).data.length = 8 := by
    simp [strTake, List.length_take, (hmd5 original).1]
  have ht6 : (generate_safe_filename md5hex original index).data.take 6
      = "audio_".data := by
    rw [hdata]
    exact List.take_left' hA
  refine ⟨fun h => by rw [h], ?_, ?_, ?_, ?_, ?_⟩
  · intro hidx
    have hB : (fmt02 index).data.length = 2 := fmt02_two_digits index hidx
    have hd6 : (generate_safe_filename md5hex original index).data.drop 6
        = (fmt02 index).data ++ ("_".data
            ++ ((strTake (md5hex original) 8).data
                ++ (strLower (pathSuffix original)).data)) := by
      rw [hdata]
      exact List.drop_left' hA
    have hd8 : (generate_safe_filename md5hex original index).data.drop 8
        = "_".data ++ ((strTake (md5hex original) 8).data
            ++ (strLower (pathSuffix original)).data) := by
      have h2 : (generate_safe_filename md5hex original index).data.drop 8
          = ((generate_safe_filename md5hex original index).data.drop 6).drop 2 :=
        (List.drop_drop 2 6 _).symm
      rw [h2, hd6, List.drop_left' hB]
    have hd9 : (generate_safe_filename md5hex original index).data.drop 9
        = (strTake (md5hex original) 8).data
            ++ (strLower (pathSuffix original)).data := by
      have h2 : (generate_safe_filename md5hex original index).data.drop 9
          = ((generate_safe_filename md5hex original index).data.drop 8).drop 1 :=
        (List.drop_drop 1 8 _).symm
      rw [h2, hd8, List.drop_left' hU]
    have hd17 : (generate_safe_filename md5hex original index).data.drop 17
        = (strLower (pathSuffix original)).data := by
      have h2 : (generate_safe_filename md5hex original index).data.drop 17
          = ((generate_safe_filename md5hex original index).data.drop 9).drop 8 :=
        (List.drop_drop 8 9 _).symm
      rw [h2, hd9, List.drop_left' hH]
    refine ⟨ht6, ?_, ?_, ?_, ?_, ?_, hd17⟩
    · rw [hd6, List.take_left' hB]
      exact hB
    · rw [hd6, List.take_left' hB]
      exact fmt02_all_digits index
    · rw [hd8, List.take_left' hU]
    · rw [hd9, List.take_left' hH]
      exact hH
    · rw [hd9, List.take_left' hH]
      intro c hc
      exact (hmd5 original).2 c (List.take_subset _ _ (by simpa [strTake] using hc))
  · intro hc
    rw [hdata] at hc
    simp only [List.mem_append] at hc
    rcases hc with hc | hc | hc | hc | hc
    · exact absurd hc (by decide)
    · exact absurd (fmt02_all_digits index '/' hc) (by decide)
    · exact absurd hc (by decide)
    · have := (hmd5 original).2 '/'
        (List.take_subset _ _ (by simpa [strTake] using hc))
      exact absurd this (by decide)
    · exact strLower_no_slash _ (pathSuffix_no_slash original) '/' hc rfl
  · intro h
    rw [h] at ht6
    exact absurd ht6 (by decide)
  · intro h
    rw [h] at ht6
    exact absurd ht6 (by decide)
  · intro h
    rw [h] at ht6
    exact absurd ht6 (by decide)

/-- C9 witness: the amended statement at a concrete filename and index. -/
theorem c9_safe_filename_witness :
    ShapeOk (generate_safe_filename md5Stub "voicemail.WAV" 7)
        (strLower (pathSuffix "voicemail.WAV")) ∧
    '/' ∉ (generate_safe_filename md5Stub "voicemail.WAV" 7).data := by
  have h := c9_safe_filename md5Stub md5Stub_hex "voicemail.WAV" 7
    scenarioAttachment scenarioAttachment
  exact ⟨h.2.1 (by decide), h.2.2.1⟩

/-- C10: calling `cleanup_correlation_files` for a correlation id whose
working directory does not exist returns `True` and leaves the whole
storage state — all three areas — unchanged, for any success flag and any
filesystem fault pattern. -/
theorem c10_finalize_missing_noop (st : StorageState) (cid : String)
    (success rmTargetFails moveFails rmWorkFails : Bool)
    (h : st.temp cid = none) :
    cleanup_correlation_files st cid success rmTargetFails moveFails rmWorkFails
      = (true, st) := by
  unfold cleanup_correlation_files
  rw [h]

/-- C10 witness: the no-op at a concrete empty storage state. -/
theorem c10_finalize_missing_noop_witness :
    cleanup_correlation_files emptyStorage "corr-1" false true true true
      = (true, emptyStorage) :=
  c10_finalize_missing_noop emptyStorage "corr-1" false true true true rfl

end AvayaSmtpProxy
